import Mathlib

/-!
Verification development for the 3patti-leaderboard backend core.

The definitions below are a shallow embedding of the repository code:

* the relational store (tables from src/backend/src/db/schema.sql),
* the per-player aggregation of the leaderboard_stats view (schema.sql,
  lines 42 to 70), with SQL numeric modelled as the rationals and SQL NULL
  modelled as Option,
* the POST /api/games and PUT /api/games/:id handlers
  (src/backend/src/routes/games.ts) including their transaction semantics
  (a working copy of the store that is published on COMMIT and discarded on
  ROLLBACK) and an event trace recording the order of store writes and
  validation checks,
* the analytics routes of the larger analytics router (src/unnamed/part_001):
  timeframe parsing, per-player analytics, the score-trend progression and
  the per-game cumulative score breakdown.

Dates are modelled as day numbers (Nat).  Calendar intervals of the
timeframe tokens are modelled as fixed day counts; the claims settled here
depend only on whether a filter is applied, never on the exact length of a
calendar month.
-/

/-- Row of the players table: id (SERIAL PRIMARY KEY) and unique name. -/
structure Player where
  id : Nat
  name : String
deriving DecidableEq, Repr

/-- Row of the games table: id, date (day number), optional metadata. -/
structure Game where
  id : Nat
  date : Nat
  location : Option String
  game_type : String
  notes : Option String
deriving DecidableEq, Repr

/-- Row of the player_game_results table. -/
structure ResultFact where
  player_id : Nat
  game_id : Nat
  position : Nat
deriving DecidableEq, Repr

/-- The relational store: the three tables plus the next SERIAL game id. -/
structure Store where
  players : List Player
  games : List Game
  results : List ResultFact
  nextGameId : Nat
deriving DecidableEq, Repr

/-- Positions of all result facts of one player, in table order
(leaderboard_stats groups player_game_results rows by player). -/
def factsOf (st : Store) (pid : Nat) : List Nat :=
  (st.results.filter (fun f => f.player_id == pid)).map (fun f => f.position)

/-- Number of facts with the given position, as in
SUM(CASE WHEN pgr.position = k THEN 1 ELSE 0 END). -/
def countPos (ps : List Nat) (k : Nat) : Nat :=
  (ps.filter (fun p => p == k)).length

/-- Sum of all positions of a player. -/
def sumPositions (ps : List Nat) : Nat :=
  ps.foldr (fun a b => a + b) 0

/-- AVG(pgr.position) over the facts of one player; SQL numeric modelled
as an exact rational.  For an empty fact list SQL AVG is NULL; callers that
need the NULL case handle it explicitly. -/
def avgPosition (ps : List Nat) : ℚ :=
  (sumPositions ps : ℚ) / (ps.length : ℚ)

/-- Direct position points of the ranking_score expression in
leaderboard_stats: 10 per first place, 5 per second, 3 per third, 1 per
fourth (schema.sql lines 59 to 62). -/
def basePoints (ps : List Nat) : ℚ :=
  10 * (countPos ps 1 : ℚ) + 5 * (countPos ps 2 : ℚ)
    + 3 * (countPos ps 3 : ℚ) + (countPos ps 4 : ℚ)

/-- GREATEST(AVG(pgr.position), 1) of schema.sql line 64.  For a player
with no facts the LEFT JOIN makes AVG NULL, and PostgreSQL GREATEST
ignores NULL arguments, so the value is 1 in that case. -/
def greatestAvg1 (ps : List Nat) : ℚ :=
  if ps.length = 0 then 1 else max (avgPosition ps) 1

/-- Consistency bonus term of the ranking_score expression:
(10 - GREATEST(AVG(position), 1)) * COUNT(id) / 10.0. -/
def consistencyBonus (ps : List Nat) : ℚ :=
  (10 - greatestAvg1 ps) * (ps.length : ℚ) / 10

/-- Full ranking_score expression of the leaderboard_stats view
(schema.sql lines 58 to 65). -/
def rankingScore (ps : List Nat) : ℚ :=
  basePoints ps + consistencyBonus ps

/-- ROUND(q, 2) of PostgreSQL numeric, rounding half away from zero; all
quantities rounded in this code are nonnegative, where this agrees with
the half-up rounding of Mathlib round. -/
def round2 (q : ℚ) : ℚ :=
  ((round (q * 100) : ℤ) : ℚ) / 100

/-- win_rate column: ROUND(wins::decimal / NULLIF(count, 0) * 100, 2).
NULLIF makes the whole expression NULL when the player has no facts. -/
def winRate (ps : List Nat) : Option ℚ :=
  if ps.length = 0 then none
  else some (round2 ((countPos ps 1 : ℚ) / (ps.length : ℚ) * 100))

/-- avg_position column: ROUND(AVG(pgr.position), 2), NULL when the player
has no facts. -/
def avgPositionRounded (ps : List Nat) : Option ℚ :=
  if ps.length = 0 then none else some (round2 (avgPosition ps))

/-- Minimum of a list of naturals as an Option (SQL MIN aggregate). -/
def natListMin : List Nat → Option Nat
  | [] => none
  | x :: xs =>
    match natListMin xs with
    | none => some x
    | some m => some (min x m)

/-- Maximum of a list of naturals as an Option (SQL MAX aggregate). -/
def natListMax : List Nat → Option Nat
  | [] => none
  | x :: xs =>
    match natListMax xs with
    | none => some x
    | some m => some (max x m)

/-- Date of the game with the given id, if it exists. -/
def gameDate (st : Store) (gid : Nat) : Option Nat :=
  (st.games.find? (fun g => g.id == gid)).map (fun g => g.date)

/-- MAX(g.date) over the games joined to the facts of one player. -/
def lastGameDate (st : Store) (pid : Nat) : Option Nat :=
  natListMax ((st.results.filter (fun f => f.player_id == pid)).filterMap
    (fun f => gameDate st f.game_id))

/-- One row of the leaderboard_stats view. -/
structure LRow where
  id : Nat
  name : String
  total_games : Nat
  games_won : Nat
  win_rate : Option ℚ
  avg_position : Option ℚ
  best_position : Option Nat
  worst_position : Option Nat
  last_game_date : Option Nat
  ranking_score : ℚ
deriving DecidableEq, Repr

/-- Aggregate row for one player computed from its fact positions, as in
the leaderboard_stats view. -/
def statsRow (pid : Nat) (pname : String) (ps : List Nat) (lastDate : Option Nat) : LRow :=
  { id := pid
    name := pname
    total_games := ps.length
    games_won := countPos ps 1
    win_rate := winRate ps
    avg_position := avgPositionRounded ps
    best_position := natListMin ps
    worst_position := natListMax ps
    last_game_date := lastDate
    ranking_score := rankingScore ps }

/-- Row of leaderboard_stats for one player of the store. -/
def rowOf (st : Store) (p : Player) : LRow :=
  statsRow p.id p.name (factsOf st p.id) (lastGameDate st p.id)

/-- All rows of the leaderboard_stats view (one per player, LEFT JOIN keeps
players with no facts). -/
def leaderboardRows (st : Store) : List LRow :=
  st.players.map (fun p => rowOf st p)

/-- Helper: the ranking_score expression evaluates to 0 on an empty fact
list (all CASE sums are 0 and the bonus multiplies by COUNT = 0). -/
theorem rankingScore_nil : rankingScore [] = 0 := by
  unfold rankingScore basePoints consistencyBonus greatestAvg1
  norm_num [countPos]

/-- C3: for every player with at least one result fact, ranking_score
equals the direct position points (10, 5, 3, 1 for places one to four,
nothing for places five and beyond) plus the consistency bonus
(10 - max(avg_position, 1)) * total_games / 10. -/
theorem rankingScore_eq_points_add_bonus (ps : List Nat) (h : ps ≠ []) :
    rankingScore ps =
      (10 * (countPos ps 1 : ℚ) + 5 * (countPos ps 2 : ℚ)
        + 3 * (countPos ps 3 : ℚ) + (countPos ps 4 : ℚ))
      + (10 - max (avgPosition ps) 1) * (ps.length : ℚ) / 10 := by
  have hlen : ps.length ≠ 0 := by
    simpa [List.length_eq_zero] using h
  unfold rankingScore basePoints consistencyBonus greatestAvg1
  rw [if_neg hlen]

/-- Witness for C3 at the fact list of the example in the claim: positions
[1, 1, 3] give ranking_score 23 + (10 - 5/3) * 3 / 10 = 51/2 = 25.5. -/
theorem rankingScore_eq_points_add_bonus_witness :
    rankingScore [1, 1, 3] =
      (10 * (countPos [1, 1, 3] 1 : ℚ) + 5 * (countPos [1, 1, 3] 2 : ℚ)
        + 3 * (countPos [1, 1, 3] 3 : ℚ) + (countPos [1, 1, 3] 4 : ℚ))
      + (10 - max (avgPosition [1, 1, 3]) 1) * (([1, 1, 3] : List Nat).length : ℚ) / 10
    ∧ rankingScore [1, 1, 3] = 51 / 2 :=
  ⟨rankingScore_eq_points_add_bonus [1, 1, 3] (by decide), by
    have c1 : countPos [1, 1, 3] 1 = 2 := rfl
    have c2 : countPos [1, 1, 3] 2 = 0 := rfl
    have c3 : countPos [1, 1, 3] 3 = 1 := rfl
    have c4 : countPos [1, 1, 3] 4 = 0 := rfl
    have hs : sumPositions [1, 1, 3] = 5 := rfl
    unfold rankingScore basePoints consistencyBonus greatestAvg1 avgPosition
    rw [c1, c2, c3, c4, hs]
    norm_num [max_def]⟩

/-- C4 (amended): a player with zero result facts gets total_games 0,
games_won 0, ranking_score 0 and a NULL win_rate (SQL NULL from the
NULLIF(COUNT, 0) guard, not the number 0); the computation is total, so no
division-by-zero error occurs. -/
theorem zero_games_aggregate_amended (st : Store) (p : Player)
    (h : factsOf st p.id = []) :
    (rowOf st p).total_games = 0 ∧ (rowOf st p).games_won = 0 ∧
    (rowOf st p).win_rate = none ∧ (rowOf st p).avg_position = none ∧
    (rowOf st p).ranking_score = 0 := by
  unfold rowOf
  rw [h]
  exact ⟨rfl, rfl, rfl, rfl, rankingScore_nil⟩

/-- Store with one player and no facts, used to refute the win_rate part
of C4. -/
def stC4 : Store :=
  { players := [{ id := 1, name := "Alice" }], games := [], results := [], nextGameId := 1 }

/-- C4 counterexample: for a player with zero facts the view reports
win_rate NULL (None), not 0 as the claim states; total_games and
ranking_score are 0 as claimed. -/
theorem zero_games_win_rate_null_cx :
    (rowOf stC4 { id := 1, name := "Alice" }).win_rate = none
    ∧ (rowOf stC4 { id := 1, name := "Alice" }).win_rate ≠ some 0
    ∧ (rowOf stC4 { id := 1, name := "Alice" }).total_games = 0
    ∧ (rowOf stC4 { id := 1, name := "Alice" }).ranking_score = 0 := by
  exact ⟨rfl, by decide, rfl, rankingScore_nil⟩

/-- Witness for C4 (amended) at the one-player store with no facts. -/
theorem zero_games_aggregate_amended_witness :
    (rowOf stC4 { id := 1, name := "Alice" }).total_games = 0 ∧
    (rowOf stC4 { id := 1, name := "Alice" }).games_won = 0 ∧
    (rowOf stC4 { id := 1, name := "Alice" }).win_rate = none ∧
    (rowOf stC4 { id := 1, name := "Alice" }).avg_position = none ∧
    (rowOf stC4 { id := 1, name := "Alice" }).ranking_score = 0 :=
  zero_games_aggregate_amended stC4 { id := 1, name := "Alice" } (by decide)

/-- Ordering actually used by GET /api/analytics/leaderboard with the
default parameters: the route builds ORDER BY ranking_score DESC, name ASC
(analytics router, ORDER BY interpolation), which replaces the ORDER BY of
the leaderboard_stats view. -/
def routeLe (a b : LRow) : Prop :=
  b.ranking_score < a.ranking_score ∨
    (a.ranking_score = b.ranking_score ∧ a.name ≤ b.name)

instance : DecidableRel routeLe := fun a b => by
  unfold routeLe
  infer_instance

instance : IsTotal LRow routeLe :=
  ⟨fun a b => by
    unfold routeLe
    rcases lt_trichotomy a.ranking_score b.ranking_score with h | h | h
    · exact Or.inr (Or.inl h)
    · rcases le_total a.name b.name with hn | hn
      · exact Or.inl (Or.inr ⟨h, hn⟩)
      · exact Or.inr (Or.inr ⟨h.symm, hn⟩)
    · exact Or.inl (Or.inl h)⟩

instance : IsTrans LRow routeLe :=
  ⟨fun a b c hab hbc => by
    unfold routeLe at hab hbc ⊢
    rcases hab with h1 | ⟨h1, hn1⟩
    · rcases hbc with h2 | ⟨h2, hn2⟩
      · exact Or.inl (h2.trans h1)
      · exact Or.inl (by rw [← h2]; exact h1)
    · rcases hbc with h2 | ⟨h2, hn2⟩
      · exact Or.inl (by rw [h1]; exact h2)
      · exact Or.inr ⟨h1.trans h2, hn1.trans hn2⟩⟩

/-- Ordering asserted by the specification for the default leaderboard:
ranking_score descending, ties by games_won descending, then win_rate
descending, then avg_position ascending, then name ascending.  The NULL
aggregate columns (possible only for players with zero games) are compared
as 0 here; the refutation below breaks the tie at games_won, where both
rows are non-NULL, so the NULL convention is irrelevant to it. -/
def specLe (a b : LRow) : Prop :=
  b.ranking_score < a.ranking_score ∨
    (a.ranking_score = b.ranking_score ∧
      (b.games_won < a.games_won ∨
        (a.games_won = b.games_won ∧
          ((b.win_rate.getD 0 : ℚ) < a.win_rate.getD 0 ∨
            (a.win_rate.getD 0 = b.win_rate.getD 0 ∧
              ((a.avg_position.getD 0 : ℚ) < b.avg_position.getD 0 ∨
                (a.avg_position.getD 0 = b.avg_position.getD 0 ∧
                  a.name ≤ b.name)))))))

instance : DecidableRel specLe := fun a b => by
  unfold specLe
  infer_instance

/-- Leaderboard returned by the route for the default parameters
(sortBy = ranking_score, sortOrder = DESC); the sort is the SQL
ORDER BY ranking_score DESC, name ASC. -/
def getLeaderboardDefault (st : Store) : List LRow :=
  List.insertionSort routeLe (leaderboardRows st)

/-- Store refuting the claimed tiebreak chain.  All games are complete
1..N permutations of existing players, so the state is reachable through
the validated game-submission path:
Bob wins three single-player games; Alice finishes second in five
two-player games behind Cara and third in one three-player game behind
Cara and Dana.  Alice and Bob both end with ranking_score 327/10, with
games_won 0 and 3 respectively. -/
def stC5 : Store :=
  { players := [{ id := 1, name := "Alice" }, { id := 2, name := "Bob" },
      { id := 3, name := "Cara" }, { id := 4, name := "Dana" }]
    games :=
      [{ id := 1, date := 1, location := none, game_type := "3 Patti", notes := none },
       { id := 2, date := 2, location := none, game_type := "3 Patti", notes := none },
       { id := 3, date := 3, location := none, game_type := "3 Patti", notes := none },
       { id := 4, date := 4, location := none, game_type := "3 Patti", notes := none },
       { id := 5, date := 5, location := none, game_type := "3 Patti", notes := none },
       { id := 6, date := 6, location := none, game_type := "3 Patti", notes := none },
       { id := 7, date := 7, location := none, game_type := "3 Patti", notes := none },
       { id := 8, date := 8, location := none, game_type := "3 Patti", notes := none },
       { id := 9, date := 9, location := none, game_type := "3 Patti", notes := none }]
    results :=
      [{ player_id := 2, game_id := 1, position := 1 },
       { player_id := 2, game_id := 2, position := 1 },
       { player_id := 2, game_id := 3, position := 1 },
       { player_id := 3, game_id := 4, position := 1 },
       { player_id := 1, game_id := 4, position := 2 },
       { player_id := 3, game_id := 5, position := 1 },
       { player_id := 1, game_id := 5, position := 2 },
       { player_id := 3, game_id := 6, position := 1 },
       { player_id := 1, game_id := 6, position := 2 },
       { player_id := 3, game_id := 7, position := 1 },
       { player_id := 1, game_id := 7, position := 2 },
       { player_id := 3, game_id := 8, position := 1 },
       { player_id := 1, game_id := 8, position := 2 },
       { player_id := 3, game_id := 9, position := 1 },
       { player_id := 4, game_id := 9, position := 2 },
       { player_id := 1, game_id := 9, position := 3 }]
    nextGameId := 10 }

/-- Alice in stC5. -/
def pAlice : Player := { id := 1, name := "Alice" }

/-- Bob in stC5. -/
def pBob : Player := { id := 2, name := "Bob" }

/-- Helper: the two tied rows of stC5 have equal ranking_score. -/
theorem stC5_scores_equal :
    (rowOf stC5 pAlice).ranking_score = (rowOf stC5 pBob).ranking_score := by
  have hA : factsOf stC5 pAlice.id = [2, 2, 2, 2, 2, 3] := rfl
  have hB : factsOf stC5 pBob.id = [1, 1, 1] := rfl
  show rankingScore (factsOf stC5 pAlice.id) = rankingScore (factsOf stC5 pBob.id)
  rw [hA, hB]
  have cA1 : countPos [2, 2, 2, 2, 2, 3] 1 = 0 := rfl
  have cA2 : countPos [2, 2, 2, 2, 2, 3] 2 = 5 := rfl
  have cA3 : countPos [2, 2, 2, 2, 2, 3] 3 = 1 := rfl
  have cA4 : countPos [2, 2, 2, 2, 2, 3] 4 = 0 := rfl
  have sA : sumPositions [2, 2, 2, 2, 2, 3] = 13 := rfl
  have cB1 : countPos [1, 1, 1] 1 = 3 := rfl
  have cB2 : countPos [1, 1, 1] 2 = 0 := rfl
  have cB3 : countPos [1, 1, 1] 3 = 0 := rfl
  have cB4 : countPos [1, 1, 1] 4 = 0 := rfl
  have sB : sumPositions [1, 1, 1] = 3 := rfl
  unfold rankingScore basePoints consistencyBonus greatestAvg1 avgPosition
  rw [cA1, cA2, cA3, cA4, sA, cB1, cB2, cB3, cB4, sB]
  norm_num [max_def]

/-- C5 (amended): the default leaderboard read orders rows by
ranking_score descending with ties broken directly by name ascending; the
games_won / win_rate / avg_position tiebreaks of the view ORDER BY are
overridden by the ORDER BY that the route itself issues. -/
theorem leaderboard_sorted_by_score_then_name (st : Store) :
    List.Pairwise routeLe (getLeaderboardDefault st) :=
  List.sorted_insertionSort routeLe (leaderboardRows st)

/-- Helper: in stC5 the row of Bob does not come weakly before the row of
Alice under the ordering the route actually issues. -/
theorem stC5_not_routeLe_bob_alice :
    ¬ routeLe (rowOf stC5 pBob) (rowOf stC5 pAlice) := by
  rintro (h | ⟨h1, h2⟩)
  · rw [stC5_scores_equal] at h
    exact lt_irrefl _ h
  · have hb : ¬ (("Bob" : String) ≤ "Alice") := by
      rw [String.le_iff_toList_le]
      decide
    exact hb h2

/-- Helper: in stC5 the row of Alice does not come weakly before the row
of Bob under the tiebreak chain claimed by the specification, because Bob
has strictly more games_won at equal ranking_score. -/
theorem stC5_not_specLe_alice_bob :
    ¬ specLe (rowOf stC5 pAlice) (rowOf stC5 pBob) := by
  rintro (h | ⟨h1, h2 | ⟨h3, h4⟩⟩)
  · rw [stC5_scores_equal] at h
    exact lt_irrefl _ h
  · exact absurd h2 (by decide)
  · exact absurd h3 (by decide)

/-- C5 counterexample: in the reachable store stC5, the returned default
leaderboard is not pairwise ordered by the claimed chain (score, then
games_won, then win_rate, then avg_position, then name): Alice
(games_won 0) is returned before Bob (games_won 3) at equal
ranking_score, because the route breaks the tie by name only. -/
theorem leaderboard_tiebreak_cx :
    ¬ List.Pairwise specLe (getLeaderboardDefault stC5) := by
  intro hp
  have hsorted : List.Pairwise routeLe (getLeaderboardDefault stC5) :=
    List.sorted_insertionSort routeLe (leaderboardRows stC5)
  have hmemA : rowOf stC5 pAlice ∈ getLeaderboardDefault stC5 :=
    (List.perm_insertionSort routeLe (leaderboardRows stC5)).mem_iff.mpr
      (List.mem_map_of_mem (fun p => rowOf stC5 p) (by decide : pAlice ∈ stC5.players))
  have hmemB : rowOf stC5 pBob ∈ getLeaderboardDefault stC5 :=
    (List.perm_insertionSort routeLe (leaderboardRows stC5)).mem_iff.mpr
      (List.mem_map_of_mem (fun p => rowOf stC5 p) (by decide : pBob ∈ stC5.players))
  obtain ⟨i, hi⟩ := List.get_of_mem hmemA
  obtain ⟨j, hj⟩ := List.get_of_mem hmemB
  have hne : i ≠ j := by
    intro hij
    have : rowOf stC5 pAlice = rowOf stC5 pBob := by rw [← hi, ← hj, hij]
    have hname := congrArg LRow.name this
    exact absurd hname (by decide)
  rcases lt_or_gt_of_ne hne with hij | hij
  · have := List.pairwise_iff_get.mp hp i j hij
    rw [hi, hj] at this
    exact stC5_not_specLe_alice_bob this
  · have := List.pairwise_iff_get.mp hsorted j i hij
    rw [hi, hj] at this
    exact stC5_not_routeLe_bob_alice this

/-- One entry of the submitted results array: a player id and a finishing
position. -/
structure ResultEntry where
  player_id : Nat
  position : Nat
deriving DecidableEq, Repr

/-- Body of POST /api/games and PUT /api/games/:id after JSON parsing. -/
structure CreateGameRequest where
  date : Option Nat
  location : Option String
  game_type : Option String
  notes : Option String
  results : List ResultEntry
deriving DecidableEq, Repr

/-- Zod schema check of games.ts lines 9 to 20: at least one result entry,
every player_id at least 1, every position at least 1. -/
def zodOk (req : CreateGameRequest) : Bool :=
  decide (1 ≤ req.results.length) &&
    req.results.all (fun r => decide (1 ≤ r.player_id) && decide (1 ≤ r.position))

/-- Outcome of a game-authoring handler: HTTP 201/200 success carrying the
game id, 400 for a zod validation error, 404 for a missing game on update,
500 for an error thrown inside the transaction (the validation throws of
games.ts land here). -/
inductive Outcome
  | success (gameId : Nat)
  | badRequest (msg : String)
  | notFound
  | serverError (msg : String)
deriving DecidableEq, Repr

/-- True exactly on the success outcome. -/
def Outcome.isSuccess : Outcome → Bool
  | .success _ => true
  | _ => false

/-- Steps of the transaction body observable against the store, in the
order the handler issues them: store writes (INSERT INTO games, UPDATE
games, DELETE FROM player_game_results, INSERT INTO player_game_results)
and validation checks (the position checks and the player-existence
check). -/
inductive Ev
  | insertGame
  | updateGameRow
  | deleteResults
  | checkPositions
  | checkPlayers
  | insertResult
deriving DecidableEq, Repr

/-- True on the events that write to the store. -/
def Ev.isWrite : Ev → Bool
  | .insertGame => true
  | .updateGameRow => true
  | .deleteResults => true
  | .insertResult => true
  | _ => false

/-- True on the validation-check events. -/
def Ev.isValidation : Ev → Bool
  | .checkPositions => true
  | .checkPlayers => true
  | _ => false

/-- Result of running a handler: the response outcome, the store visible
after the transaction finished (the initial store when it rolled back),
and the trace of transaction-body steps in issue order. -/
structure TxnResult where
  outcome : Outcome
  store : Store
  trace : List Ev
deriving DecidableEq, Repr

/-- Game row built by the INSERT of games.ts lines 101 to 109: SERIAL id,
date defaulting to the current day, game_type defaulting to 3 Patti. -/
def newGameOf (st : Store) (now : Nat) (req : CreateGameRequest) : Game :=
  { id := st.nextGameId
    date := req.date.getD now
    location := req.location
    game_type := req.game_type.getD ("3 Patti")
    notes := req.notes }

/-- Submitted positions sorted ascending, as in
results.map(r => r.position).sort((a, b) => a - b). -/
def sortedPositions (req : CreateGameRequest) : List Nat :=
  List.insertionSort (fun a b => a ≤ b) (req.results.map (fun r => r.position))

/-- Loop of games.ts lines 122 to 126 checking positions[i] == i + 1,
started at index 0. -/
def seqFromAux : List Nat → Nat → Bool
  | [], _ => true
  | x :: xs, i => x == i + 1 && seqFromAux xs (i + 1)

/-- Check that a sorted position list is exactly 1, 2, ..., N. -/
def seqFrom1 (l : List Nat) : Bool :=
  seqFromAux l 0

/-- Player ids of the submitted result entries. -/
def requestPlayerIds (req : CreateGameRequest) : List Nat :=
  req.results.map (fun r => r.player_id)

/-- Rows returned by SELECT id FROM players WHERE id = ANY(playerIds):
the stored player rows whose id occurs among the submitted ids (each
stored row at most once, ids are the primary key). -/
def existingPlayerCount (st : Store) (pids : List Nat) : Nat :=
  (st.players.filter (fun p => decide (p.id ∈ pids))).length

/-- Store after the INSERT INTO games of POST /api/games: the game row is
appended and the SERIAL counter advances. -/
def gameInsertedStore (st : Store) (now : Nat) (req : CreateGameRequest) : Store :=
  { st with games := st.games ++ [newGameOf st now req], nextGameId := st.nextGameId + 1 }

/-- Result-fact rows inserted by the loop over validatedData.results. -/
def newFactsOf (req : CreateGameRequest) (gid : Nat) : List ResultFact :=
  req.results.map (fun r => { player_id := r.player_id, game_id := gid, position := r.position })

/-- POST /api/games (games.ts lines 92 to 180).  The body JSON is checked
against the zod schema; then, inside one transaction: the game row is
inserted, the positions are validated (uniqueness, then contiguity from
1), the referenced players are counted, and the result facts are
inserted.  Any thrown validation error rolls the transaction back, so the
returned store is the initial one on every non-success outcome. -/
def submitGame (st : Store) (now : Nat) (req : CreateGameRequest) : TxnResult :=
  if zodOk req = false then
    { outcome := Outcome.badRequest ("Validation error"), store := st, trace := [] }
  else if (sortedPositions req).dedup.length ≠ (sortedPositions req).length then
    { outcome := Outcome.serverError ("Positions must be unique"), store := st,
      trace := [Ev.insertGame, Ev.checkPositions] }
  else if seqFrom1 (sortedPositions req) = false then
    { outcome := Outcome.serverError ("Positions must be sequential starting from 1"),
      store := st, trace := [Ev.insertGame, Ev.checkPositions] }
  else if existingPlayerCount (gameInsertedStore st now req) (requestPlayerIds req)
      ≠ (requestPlayerIds req).length then
    { outcome := Outcome.serverError ("Some players do not exist"), store := st,
      trace := [Ev.insertGame, Ev.checkPositions, Ev.checkPlayers] }
  else
    { outcome := Outcome.success st.nextGameId
      store := { gameInsertedStore st now req with
        results := (gameInsertedStore st now req).results ++ newFactsOf req st.nextGameId }
      trace := [Ev.insertGame, Ev.checkPositions, Ev.checkPlayers]
        ++ (newFactsOf req st.nextGameId).map (fun _ => Ev.insertResult) }

/-- Updated game row written by the UPDATE of PUT /api/games/:id: the date
defaults to the stored one, game_type to 3 Patti. -/
def updatedGameRow (g0 : Game) (req : CreateGameRequest) : Game :=
  { id := g0.id
    date := req.date.getD g0.date
    location := req.location
    game_type := req.game_type.getD ("3 Patti")
    notes := req.notes }

/-- Store after the UPDATE games statement of PUT /api/games/:id. -/
def gameUpdatedStore (st : Store) (gid : Nat) (g0 : Game) (req : CreateGameRequest) : Store :=
  { st with games := st.games.map (fun g => if g.id == gid then updatedGameRow g0 req else g) }

/-- Store after DELETE FROM player_game_results WHERE game_id = id. -/
def resultsDeletedStore (st : Store) (gid : Nat) : Store :=
  { st with results := st.results.filter (fun f => f.game_id != gid) }

/-- PUT /api/games/:id (games.ts lines 183 to 290).  After the zod check
and the existence check on the game id, one transaction updates the game
row, deletes the old result facts, and only then validates positions and
players before inserting the new facts; failures roll back, so the
returned store is the initial one on every non-success outcome. -/
def updateGame (st : Store) (gid : Nat) (req : CreateGameRequest) : TxnResult :=
  if zodOk req = false then
    { outcome := Outcome.badRequest ("Validation error"), store := st, trace := [] }
  else
    match st.games.find? (fun g => g.id == gid) with
    | none => { outcome := Outcome.notFound, store := st, trace := [] }
    | some g0 =>
      if (sortedPositions req).dedup.length ≠ (sortedPositions req).length then
        { outcome := Outcome.serverError ("Positions must be unique"), store := st,
          trace := [Ev.updateGameRow, Ev.deleteResults, Ev.checkPositions] }
      else if seqFrom1 (sortedPositions req) = false then
        { outcome := Outcome.serverError ("Positions must be sequential starting from 1"),
          store := st, trace := [Ev.updateGameRow, Ev.deleteResults, Ev.checkPositions] }
      else if existingPlayerCount (resultsDeletedStore (gameUpdatedStore st gid g0 req) gid)
          (requestPlayerIds req) ≠ (requestPlayerIds req).length then
        { outcome := Outcome.serverError ("Some players do not exist"), store := st,
          trace := [Ev.updateGameRow, Ev.deleteResults, Ev.checkPositions, Ev.checkPlayers] }
      else
        { outcome := Outcome.success gid
          store := { resultsDeletedStore (gameUpdatedStore st gid g0 req) gid with
            results := (resultsDeletedStore (gameUpdatedStore st gid g0 req) gid).results
              ++ newFactsOf req gid }
          trace := [Ev.updateGameRow, Ev.deleteResults, Ev.checkPositions, Ev.checkPlayers]
            ++ (newFactsOf req gid).map (fun _ => Ev.insertResult) }

/-- Helper: the index loop of games.ts checks exactly that the list is
k+1, k+2, ... when started at k. -/
theorem seqFromAux_iff (l : List Nat) :
    ∀ k, seqFromAux l k = true ↔ l = List.range' (k + 1) l.length := by
  induction l with
  | nil => intro k; simp [seqFromAux]
  | cons x xs ih =>
    intro k
    rw [List.length_cons, List.range'_succ]
    simp only [seqFromAux, Bool.and_eq_true, beq_iff_eq]
    constructor
    · rintro ⟨hx, hrest⟩
      have hxs := (ih (k + 1)).mp hrest
      rw [hx]
      exact congrArg (List.cons (k + 1)) hxs
    · intro h
      injection h with h1 h2
      exact ⟨h1, (ih (k + 1)).mpr h2⟩

/-- Helper: the sequential-position loop started at 0 accepts exactly the
list 1, 2, ..., N. -/
theorem seqFrom1_iff (l : List Nat) :
    seqFrom1 l = true ↔ l = List.range' 1 l.length := by
  simpa [seqFrom1] using seqFromAux_iff l 0

/-- Helper: the two position checks of the handler (uniqueness of the
sorted positions and the index loop) pass together exactly when the
submitted positions are a permutation of 1..N. -/
theorem position_checks_iff (req : CreateGameRequest) :
    ((sortedPositions req).dedup.length = (sortedPositions req).length ∧
      seqFrom1 (sortedPositions req) = true) ↔
    (req.results.map (fun r => r.position)).Perm
      (List.range' 1 req.results.length) := by
  have hperm : (sortedPositions req).Perm (req.results.map (fun r => r.position)) :=
    List.perm_insertionSort _ _
  have hlen : (sortedPositions req).length = req.results.length := by
    rw [hperm.length_eq, List.length_map]
  constructor
  · rintro ⟨hd, hs⟩
    have heq : sortedPositions req = List.range' 1 req.results.length := by
      rw [← hlen]
      exact (seqFrom1_iff _).mp hs
    have h1 := hperm.symm
    rw [heq] at h1
    exact h1
  · intro hp
    have h1 : (sortedPositions req).Perm (List.range' 1 req.results.length) :=
      hperm.trans hp
    have hsort : List.Sorted (fun a b => a ≤ b) (sortedPositions req) :=
      List.sorted_insertionSort _ _
    have hr : List.Sorted (fun a b => a ≤ b) (List.range' 1 req.results.length) :=
      List.Pairwise.imp le_of_lt (List.pairwise_lt_range' 1 _)
    have heq : sortedPositions req = List.range' 1 req.results.length :=
      List.eq_of_perm_of_sorted h1 hsort hr
    constructor
    · rw [heq, List.Nodup.dedup (List.nodup_range' _ _)]
    · exact (seqFrom1_iff _).mpr (by rw [hlen, heq])

/-- Helper: the DISTINCT row count returned for
SELECT id FROM players WHERE id = ANY(playerIds) equals the number of
submitted entries exactly when the submitted ids are pairwise distinct
and all of them exist, provided the stored ids are unique (primary
key). -/
theorem existingPlayerCount_eq_length_iff (st : Store) (pids : List Nat)
    (hnd : (st.players.map (fun p => p.id)).Nodup) :
    existingPlayerCount st pids = pids.length ↔
      (pids.Nodup ∧ ∀ x ∈ pids, x ∈ st.players.map (fun p => p.id)) := by
  classical
  have hcount : existingPlayerCount st pids =
      ((st.players.map (fun p => p.id)).filter (fun x => decide (x ∈ pids))).length := by
    unfold existingPlayerCount
    rw [← List.countP_eq_length_filter, ← List.countP_eq_length_filter, List.countP_map]
    rfl
  have hTnodup : ((st.players.map (fun p => p.id)).filter
      (fun x => decide (x ∈ pids))).Nodup := hnd.filter _
  have hcard : ((st.players.map (fun p => p.id)).filter
        (fun x => decide (x ∈ pids))).length
      = ((st.players.map (fun p => p.id)).toFinset ∩ pids.toFinset).card := by
    rw [← List.toFinset_card_of_nodup hTnodup, List.toFinset_filter]
    rw [← Finset.filter_mem_eq_inter]
    exact congrArg Finset.card
      (Finset.filter_congr (fun x _ => by simp))
  have key : existingPlayerCount st pids
      = ((st.players.map (fun p => p.id)).toFinset ∩ pids.toFinset).card :=
    hcount.trans hcard
  have h1 : pids.toFinset.card = pids.dedup.length := List.card_toFinset pids
  have h2 : pids.dedup.length ≤ pids.length := (List.dedup_sublist pids).length_le
  constructor
  · intro h
    rw [key] at h
    have hle1 : ((st.players.map (fun p => p.id)).toFinset ∩ pids.toFinset).card
        ≤ pids.toFinset.card := Finset.card_le_card Finset.inter_subset_right
    have hnodup : pids.Nodup := by
      have hlen : pids.dedup.length = pids.length := by omega
      exact List.dedup_eq_self.mp ((List.dedup_sublist pids).eq_of_length hlen)
    have hfin : (st.players.map (fun p => p.id)).toFinset ∩ pids.toFinset
        = pids.toFinset :=
      Finset.eq_of_subset_of_card_le Finset.inter_subset_right (by omega)
    refine ⟨hnodup, fun x hx => ?_⟩
    have hxx : x ∈ (st.players.map (fun p => p.id)).toFinset ∩ pids.toFinset := by
      rw [hfin]
      exact List.mem_toFinset.mpr hx
    exact List.mem_toFinset.mp (Finset.mem_inter.mp hxx).1
  · rintro ⟨hnodup, hsub⟩
    rw [key]
    have hfin : (st.players.map (fun p => p.id)).toFinset ∩ pids.toFinset
        = pids.toFinset :=
      Finset.inter_eq_right.mpr
        (fun x hx => List.mem_toFinset.mpr (hsub x (List.mem_toFinset.mp hx)))
    rw [hfin]
    rw [h1, hnodup.dedup]

/-- Helper: every run of POST /api/games either succeeds or returns the
initial store (the transaction rolled back). -/
theorem submitGame_store_cases (st : Store) (now : Nat) (req : CreateGameRequest) :
    (submitGame st now req).outcome.isSuccess = true ∨
      (submitGame st now req).store = st := by
  unfold submitGame
  split
  · exact Or.inr rfl
  · split
    · exact Or.inr rfl
    · split
      · exact Or.inr rfl
      · split
        · exact Or.inr rfl
        · exact Or.inl rfl

/-- Helper: every run of PUT /api/games/:id either succeeds or returns
the initial store. -/
theorem updateGame_store_cases (st : Store) (gid : Nat) (req : CreateGameRequest) :
    (updateGame st gid req).outcome.isSuccess = true ∨
      (updateGame st gid req).store = st := by
  unfold updateGame
  split
  · exact Or.inr rfl
  · split
    · exact Or.inr rfl
    · split
      · exact Or.inr rfl
      · split
        · exact Or.inr rfl
        · split
          · exact Or.inr rfl
          · exact Or.inl rfl

/-- Helper: POST /api/games succeeds exactly when the zod parse and the
three in-transaction checks all pass (raw form, in terms of the checks the
code performs). -/
theorem submitGame_success_iff_raw (st : Store) (now : Nat) (req : CreateGameRequest) :
    (submitGame st now req).outcome.isSuccess = true ↔
      (zodOk req = true ∧
        (sortedPositions req).dedup.length = (sortedPositions req).length ∧
        seqFrom1 (sortedPositions req) = true ∧
        existingPlayerCount st (requestPlayerIds req) = (requestPlayerIds req).length) := by
  have hEPC : existingPlayerCount (gameInsertedStore st now req) (requestPlayerIds req)
      = existingPlayerCount st (requestPlayerIds req) := rfl
  unfold submitGame
  split
  · rename_i hz
    simp [Outcome.isSuccess, hz]
  · rename_i hz
    split
    · rename_i hd
      simp [Outcome.isSuccess, hd]
    · rename_i hd
      split
      · rename_i hs
        simp [Outcome.isSuccess, hs]
      · rename_i hs
        split
        · rename_i hp
          rw [hEPC] at hp
          simp [Outcome.isSuccess, hp]
        · rename_i hp
          rw [hEPC] at hp
          simp [Outcome.isSuccess, Bool.not_eq_false, not_not] at hz hd hs hp ⊢
          exact ⟨hz, hd, hs, hp⟩

/-- C1 (amended): given the schema invariants of the player table (unique
primary-key ids, SERIAL ids at least 1), game creation succeeds if and
only if the submitted result list is nonempty, the multiset of submitted
positions is exactly 1..N, the submitted player ids are pairwise
distinct, and every submitted player id exists in the player store.
Relative to the claim, pairwise distinctness of the submitted player ids
is an added conjunct: the handler compares the count of DISTINCT existing
rows against the number of entries, so a duplicated id fails the check
even when that player exists and the positions are a valid
permutation. -/
theorem submitGame_success_iff (st : Store) (now : Nat) (req : CreateGameRequest)
    (hids : (st.players.map (fun p => p.id)).Nodup)
    (hprim : ∀ p ∈ st.players, 1 ≤ p.id) :
    (submitGame st now req).outcome.isSuccess = true ↔
      (req.results ≠ [] ∧
        (req.results.map (fun r => r.position)).Perm (List.range' 1 req.results.length) ∧
        (requestPlayerIds req).Nodup ∧
        ∀ x ∈ requestPlayerIds req, x ∈ st.players.map (fun p => p.id)) := by
  rw [submitGame_success_iff_raw]
  constructor
  · rintro ⟨hz, hd, hs, hp⟩
    have hperm := (position_checks_iff req).mp ⟨hd, hs⟩
    have hex := (existingPlayerCount_eq_length_iff st _ hids).mp hp
    have hne : req.results ≠ [] := by
      unfold zodOk at hz
      rw [Bool.and_eq_true] at hz
      have h1 := of_decide_eq_true hz.1
      exact List.length_pos.mp (by omega)
    exact ⟨hne, hperm, hex.1, hex.2⟩
  · rintro ⟨hne, hperm, hnd, hsub⟩
    have hchecks := (position_checks_iff req).mpr hperm
    refine ⟨?_, hchecks.1, hchecks.2,
      (existingPlayerCount_eq_length_iff st _ hids).mpr ⟨hnd, hsub⟩⟩
    unfold zodOk
    rw [Bool.and_eq_true, List.all_eq_true]
    refine ⟨decide_eq_true (List.length_pos.mpr hne), ?_⟩
    intro r hr
    rw [Bool.and_eq_true]
    constructor
    · apply decide_eq_true
      have hmem : r.player_id ∈ requestPlayerIds req := List.mem_map_of_mem _ hr
      obtain ⟨p, hpmem, hpid⟩ := List.mem_map.mp (hsub _ hmem)
      exact hpid ▸ hprim p hpmem
    · apply decide_eq_true
      have hmem : r.position ∈ req.results.map (fun r => r.position) :=
        List.mem_map_of_mem _ hr
      obtain ⟨i, hi, hx⟩ := List.mem_range'.mp (hperm.mem_iff.mp hmem)
      omega

/-- Store with a single player (id 1), used for the duplicate-submission
refutations. -/
def stC1 : Store :=
  { players := [{ id := 1, name := "Alice" }], games := [], results := [], nextGameId := 1 }

/-- Request listing the same existing player twice, with positions 1 and
2 (a valid 1..N permutation for its two entries). -/
def reqC1 : CreateGameRequest :=
  { date := none, location := none, game_type := none, notes := none
    results := [{ player_id := 1, position := 1 }, { player_id := 1, position := 2 }] }

/-- C1 counterexample: this request is nonempty, every referenced player
exists, and the submitted positions are exactly the multiset {1, 2} for
its two entries, yet creation fails: the biconditional of the claim is
false because the handler additionally requires the player ids to be
pairwise distinct. -/
theorem submit_success_biconditional_cx :
    reqC1.results ≠ [] ∧
    (reqC1.results.map (fun r => r.position)).Perm (List.range' 1 reqC1.results.length) ∧
    (∀ x ∈ requestPlayerIds reqC1, x ∈ stC1.players.map (fun p => p.id)) ∧
    (submitGame stC1 5 reqC1).outcome.isSuccess = false := by
  refine ⟨by decide, by decide, by decide, by decide⟩

/-- Four-entry request with positions 1, 2, 3, 4 over four distinct
existing players. -/
def reqW4 : CreateGameRequest :=
  { date := none, location := none, game_type := none, notes := none
    results := [{ player_id := 1, position := 1 }, { player_id := 2, position := 2 },
      { player_id := 3, position := 3 }, { player_id := 4, position := 4 }] }

/-- Witness for C1 (amended): the accepted example of the claim,
positions [1, 2, 3, 4] for four distinct existing players, succeeds. -/
theorem submitGame_success_iff_witness :
    (submitGame stC5 20 reqW4).outcome.isSuccess = true :=
  (submitGame_success_iff stC5 20 reqW4 (by decide) (by decide)).mpr
    ⟨by decide, by decide, by decide, by decide⟩

/-- C2: whenever game creation does not succeed (any validation rule
fails, including the player-existence check performed after the game row
was tentatively inserted inside the transaction), the visible store is
exactly the initial one: neither the Game row nor any Result fact is
persisted. -/
theorem submitGame_failure_rolls_back (st : Store) (now : Nat) (req : CreateGameRequest)
    (h : (submitGame st now req).outcome.isSuccess = false) :
    (submitGame st now req).store = st :=
  (submitGame_store_cases st now req).resolve_left (by simp [h])

/-- Store with two players, for the missing-third-player witness. -/
def stC2 : Store :=
  { players := [{ id := 1, name := "Alice" }, { id := 2, name := "Bob" }]
    games := [], results := [], nextGameId := 1 }

/-- Request referencing three players of which one (id 3) does not
exist. -/
def reqC2 : CreateGameRequest :=
  { date := none, location := none, game_type := none, notes := none
    results := [{ player_id := 1, position := 1 }, { player_id := 2, position := 2 },
      { player_id := 3, position := 3 }] }

/-- Witness for C2 at the spec example: one of three referenced players
does not exist; the request fails and the store is unchanged. -/
theorem submitGame_failure_rolls_back_witness :
    (submitGame stC2 5 reqC2).outcome.isSuccess = false ∧
      (submitGame stC2 5 reqC2).store = stC2 :=
  ⟨by decide, submitGame_failure_rolls_back stC2 5 reqC2 (by decide)⟩

/-- C7: a result list in which some player id occurs twice is always
rejected, whatever the positions are, and nothing is persisted; the
DISTINCT row count of the player-existence check is then necessarily
smaller than the number of entries. -/
theorem duplicate_player_always_rejected (st : Store) (now : Nat) (req : CreateGameRequest)
    (hids : (st.players.map (fun p => p.id)).Nodup)
    (hdup : ¬ (requestPlayerIds req).Nodup) :
    (submitGame st now req).outcome.isSuccess = false ∧
      (submitGame st now req).store = st := by
  have hns : ¬ (submitGame st now req).outcome.isSuccess = true := by
    rw [submitGame_success_iff_raw]
    rintro ⟨hz, hd, hs, hp⟩
    exact hdup ((existingPlayerCount_eq_length_iff st _ hids).mp hp).1
  have h1 : (submitGame st now req).outcome.isSuccess = false := by
    cases hh : (submitGame st now req).outcome.isSuccess
    · rfl
    · exact absurd hh hns
  exact ⟨h1, (submitGame_store_cases st now req).resolve_left (by simp [h1])⟩

/-- Witness for C7: the duplicated-player request with valid positions
[1, 2] over the one-player store is rejected and persists nothing. -/
theorem duplicate_player_always_rejected_witness :
    (submitGame stC1 5 reqC1).outcome.isSuccess = false ∧
      (submitGame stC1 5 reqC1).store = stC1 :=
  duplicate_player_always_rejected stC1 5 reqC1 (by decide) (by decide)

/-- Formalization of the temporal property asserted by the claim (modelled
from the claim wording, for refutation): true when no store-write step of
the trace occurs before a later validation-check step. -/
def specNoWriteBeforeValidation : List Ev → Bool
  | [] => true
  | e :: rest =>
    if e.isWrite then
      rest.all (fun x => !x.isValidation) && specNoWriteBeforeValidation rest
    else specNoWriteBeforeValidation rest

/-- Valid single-entry request for player 1 at position 1. -/
def reqC6 : CreateGameRequest :=
  { date := none, location := none, game_type := none, notes := none
    results := [{ player_id := 1, position := 1 }] }

/-- C6 counterexample: on this (perfectly valid) creation request the
transaction trace is INSERT game, position checks, player check, INSERT
result: the Game insert is a store-write step issued before the
validation checks, refuting the claim that no store-write precedes
them. -/
theorem write_before_validation_cx :
    (submitGame stC1 5 reqC6).trace
        = [Ev.insertGame, Ev.checkPositions, Ev.checkPlayers, Ev.insertResult] ∧
      specNoWriteBeforeValidation (submitGame stC1 5 reqC6).trace = false := by
  refine ⟨by decide, by decide⟩

/-- C6 (amended): inside the transaction the store-writes do precede the
validation checks (for creation the Game insert comes first; for update
the game UPDATE and the result DELETE come first), but the operation
still aborts on the first violated invariant, and because the writes are
transactional every non-success outcome leaves the visible store exactly
as it was. -/
theorem writes_precede_validation_but_roll_back
    (st : Store) (now : Nat) (req : CreateGameRequest) (gid : Nat)
    (hz : zodOk req = true)
    (hgame : (st.games.find? (fun g => g.id == gid)).isSome = true) :
    ((submitGame st now req).trace.take 2 = [Ev.insertGame, Ev.checkPositions] ∧
      ((submitGame st now req).outcome.isSuccess = false →
        (submitGame st now req).store = st)) ∧
    ((updateGame st gid req).trace.take 3
        = [Ev.updateGameRow, Ev.deleteResults, Ev.checkPositions] ∧
      ((updateGame st gid req).outcome.isSuccess = false →
        (updateGame st gid req).store = st)) := by
  obtain ⟨g0, hfind⟩ := Option.isSome_iff_exists.mp hgame
  refine ⟨⟨?_, ?_⟩, ⟨?_, ?_⟩⟩
  · unfold submitGame
    rw [if_neg (by simp [hz])]
    split
    · rfl
    · split
      · rfl
      · split
        · rfl
        · rfl
  · exact fun h => (submitGame_store_cases st now req).resolve_left (by simp [h])
  · unfold updateGame
    rw [if_neg (by simp [hz]), hfind]
    split
    · rename_i x heq
      exact Option.noConfusion heq
    · split
      · rfl
      · split
        · rfl
        · split
          · rfl
          · rfl
  · exact fun h => (updateGame_store_cases st gid req).resolve_left (by simp [h])

/-- Store with one player, one game (id 1) and its single result fact. -/
def stC6 : Store :=
  { players := [{ id := 1, name := "Alice" }]
    games := [{ id := 1, date := 3, location := none, game_type := "3 Patti", notes := none }]
    results := [{ player_id := 1, game_id := 1, position := 1 }]
    nextGameId := 2 }

/-- Witness for C6 (amended) at a concrete store, request and game id. -/
theorem writes_precede_validation_but_roll_back_witness :
    ((submitGame stC6 5 reqC6).trace.take 2 = [Ev.insertGame, Ev.checkPositions] ∧
      ((submitGame stC6 5 reqC6).outcome.isSuccess = false →
        (submitGame stC6 5 reqC6).store = stC6)) ∧
    ((updateGame stC6 1 reqC6).trace.take 3
        = [Ev.updateGameRow, Ev.deleteResults, Ev.checkPositions] ∧
      ((updateGame stC6 1 reqC6).outcome.isSuccess = false →
        (updateGame stC6 1 reqC6).store = stC6)) :=
  writes_precede_validation_but_roll_back stC6 5 reqC6 1 (by decide) (by decide)

/-- Timeframe parsing of the analytics router: the switch maps the five
recognised tokens to a date filter g.date >= CURRENT_DATE - interval,
while the token lifetime and the default branch produce no filter at all.
Calendar intervals are modelled as fixed day counts; the claims settled
here depend only on whether a filter is produced. -/
def timeframeCutoff (now : Nat) (tf : String) : Option Nat :=
  if tf = "7days" then some (now - 7)
  else if tf = "30days" then some (now - 30)
  else if tf = "90days" then some (now - 90)
  else if tf = "6months" then some (now - 183)
  else if tf = "1year" then some (now - 365)
  else none

/-- Rows of the player_games CTE of GET /api/analytics/player/:id: the
result facts of the player joined with their game dates, restricted by
the timeframe cutoff when one is present.  Every aggregate of the
response (monthly stats, position distribution, recent performance,
performance trends) is computed from exactly this row set. -/
def playerGamesRows (st : Store) (pid : Nat) (cutoff : Option Nat) : List (Nat × Nat) :=
  ((st.results.filter (fun f => f.player_id == pid)).filterMap
    (fun f => (st.games.find? (fun g => g.id == f.game_id)).map
      (fun g => (g.date, f.position)))).filter
    (fun r => match cutoff with
      | none => true
      | some c => decide (c ≤ r.1))

/-- Response of GET /api/analytics/player/:id: 404 when the player does
not exist, otherwise 200 carrying the player and the CTE row set its
aggregates are computed from.  The badRequest constructor is the 400
response shape of the API; this handler never produces it. -/
inductive AnalyticsResp
  | ok (player_id : Nat) (player_name : String) (playerGames : List (Nat × Nat))
  | notFound
  | badRequest (msg : String)
deriving DecidableEq, Repr

/-- GET /api/analytics/player/:id of the analytics router: build the date
filter from the timeframe token, then 404 if the player is missing, else
aggregate over the filtered facts. -/
def getPlayerAnalytics (st : Store) (now : Nat) (pid : Nat) (tf : String) : AnalyticsResp :=
  match st.players.find? (fun p => p.id == pid) with
  | none => AnalyticsResp.notFound
  | some p => AnalyticsResp.ok pid p.name (playerGamesRows st pid (timeframeCutoff now tf))

/-- C8 counterexample: the unrecognised timeframe token banana is not
rejected: the read succeeds, and it returns exactly what the lifetime
window returns (the default branch of the switch produces no filter). -/
theorem invalid_timeframe_accepted_cx :
    getPlayerAnalytics stC6 5 1 ("banana") = AnalyticsResp.ok 1 ("Alice") [(3, 1)] ∧
      getPlayerAnalytics stC6 5 1 ("banana") = getPlayerAnalytics stC6 5 1 ("lifetime") := by
  refine ⟨by decide, by decide⟩

/-- C8 (amended): every timeframe token outside the six recognised ones
(the five windows and lifetime) is silently treated as lifetime: the
analytics read behaves identically to the lifetime read instead of
rejecting the request. -/
theorem invalid_timeframe_treated_as_lifetime (st : Store) (now : Nat) (pid : Nat)
    (tf : String)
    (h : tf ∉ ["7days", "30days", "90days", "6months", "1year", "lifetime"]) :
    getPlayerAnalytics st now pid tf = getPlayerAnalytics st now pid ("lifetime") := by
  have hc : timeframeCutoff now tf = none := by
    simp only [List.mem_cons, List.not_mem_nil, or_false, not_or] at h
    obtain ⟨h1, h2, h3, h4, h5, h6⟩ := h
    unfold timeframeCutoff
    rw [if_neg h1, if_neg h2, if_neg h3, if_neg h4, if_neg h5]
  unfold getPlayerAnalytics
  rw [hc]
  rfl

/-- Witness for C8 (amended) at the token banana. -/
theorem invalid_timeframe_treated_as_lifetime_witness :
    getPlayerAnalytics stC6 5 1 ("banana") = getPlayerAnalytics stC6 5 1 ("lifetime") :=
  invalid_timeframe_treated_as_lifetime stC6 5 1 ("banana") (by decide)

/-- Positions of the facts of one player whose game date is on or before
d (the WHERE pgr.player_id = $1 AND g.date <= $2 join used by the
cumulative-score queries). -/
def positionsUpTo (st : Store) (pid : Nat) (d : Nat) : List Nat :=
  (st.results.filter (fun f => f.player_id == pid)).filterMap
    (fun f => match st.games.find? (fun g => g.id == f.game_id) with
      | none => none
      | some g => if g.date ≤ d then some f.position else none)

/-- Row of the per-player game list of the score-trend route: one result
fact of the player joined with its game. -/
structure PlayerGameRow where
  game_id : Nat
  date : Nat
  position : Nat
  location : Option String
deriving DecidableEq, Repr

/-- ORDER BY g.date ASC, g.id ASC of the score-trend query. -/
def chronoLe (a b : PlayerGameRow) : Prop :=
  a.date < b.date ∨ (a.date = b.date ∧ a.game_id ≤ b.game_id)

instance : DecidableRel chronoLe := fun a b => by
  unfold chronoLe
  infer_instance

/-- All games of one player in chronological order (score-trend route,
first query). -/
def playerGameRowsChrono (st : Store) (pid : Nat) : List PlayerGameRow :=
  List.insertionSort chronoLe
    ((st.results.filter (fun f => f.player_id == pid)).filterMap
      (fun f => (st.games.find? (fun g => g.id == f.game_id)).map
        (fun g =>
          { game_id := f.game_id
            date := g.date
            position := f.position
            location := g.location })))

/-- One point of the score progression returned by
GET /api/analytics/player/:id/score-trend. -/
structure ProgressPoint where
  game_number : Nat
  game_id : Nat
  date : Nat
  location : Option String
  position_this_game : Nat
  cumulative_score : ℚ
  total_games : Nat
  games_won : Nat
  avg_position : ℚ
deriving DecidableEq, Repr

/-- Response of the score-trend route.  The notFound constructor is the
404 response shape of the API; this handler never produces it. -/
inductive TrendResp
  | ok (player_id : Nat) (progression : List ProgressPoint)
  | notFound
deriving DecidableEq, Repr

/-- GET /api/analytics/player/:id/score-trend: list the games of the
player chronologically; when there are none, return success with an
empty progression; otherwise return one cumulative snapshot per game,
each over the facts dated up to and including that game. -/
def scoreTrend (st : Store) (pid : Nat) : TrendResp :=
  if playerGameRowsChrono st pid = [] then
    TrendResp.ok pid []
  else
    TrendResp.ok pid ((playerGameRowsChrono st pid).enum.map
      (fun ir =>
        { game_number := ir.1 + 1
          game_id := ir.2.game_id
          date := ir.2.date
          location := ir.2.location
          position_this_game := ir.2.position
          cumulative_score := rankingScore (positionsUpTo st pid ir.2.date)
          total_games := (positionsUpTo st pid ir.2.date).length
          games_won := countPos (positionsUpTo st pid ir.2.date) 1
          avg_position := (avgPositionRounded (positionsUpTo st pid ir.2.date)).getD 0 }))

/-- C9 counterexample: for the nonexistent player id 99, the
score-progression read answers success with an empty progression, not
NotFound, while the plain per-player analytics read answers NotFound. -/
theorem score_trend_missing_player_cx :
    scoreTrend stC6 99 = TrendResp.ok 99 [] ∧
      TrendResp.ok 99 ([] : List ProgressPoint) ≠ TrendResp.notFound ∧
      getPlayerAnalytics stC6 5 99 ("lifetime") = AnalyticsResp.notFound := by
  refine ⟨by decide, by decide, by decide⟩

/-- C9 (amended): when a player id is absent from the player store (and
the store satisfies the foreign-key invariant that every fact references
an existing player), the per-player analytics read reports NotFound, but
the score-progression read instead returns success with an empty
progression: it never checks player existence. -/
theorem missing_player_analytics_behavior (st : Store) (now : Nat) (pid : Nat)
    (tf : String)
    (hFK : ∀ f ∈ st.results, ∃ p ∈ st.players, p.id = f.player_id)
    (hmiss : ∀ p ∈ st.players, p.id ≠ pid) :
    getPlayerAnalytics st now pid tf = AnalyticsResp.notFound ∧
      scoreTrend st pid = TrendResp.ok pid [] := by
  have hfind : st.players.find? (fun p => p.id == pid) = none := by
    rw [List.find?_eq_none]
    intro p hp
    simpa using hmiss p hp
  have hempty : st.results.filter (fun f => f.player_id == pid) = [] := by
    rw [List.filter_eq_nil_iff]
    intro f hf
    obtain ⟨p, hpmem, hpid⟩ := hFK f hf
    have hne := hmiss p hpmem
    rw [hpid] at hne
    simpa using hne
  constructor
  · unfold getPlayerAnalytics
    rw [hfind]
  · unfold scoreTrend playerGameRowsChrono
    rw [hempty]
    rfl

/-- Witness for C9 (amended) at the one-player store and absent id 99. -/
theorem missing_player_analytics_behavior_witness :
    getPlayerAnalytics stC6 5 99 ("30days") = AnalyticsResp.notFound ∧
      scoreTrend stC6 99 = TrendResp.ok 99 [] :=
  missing_player_analytics_behavior stC6 5 99 ("30days") (by decide) (by decide)

/-- Helper query getPositionPoints of the analytics router: COUNT of the
result facts of a player at one given position whose game date is on or
before d (despite its name, the function returns a count of places, not
points). -/
def getPositionPoints (st : Store) (pid : Nat) (d : Nat) (k : Nat) : Nat :=
  (st.results.filter (fun f =>
    f.player_id == pid && f.position == k &&
      (match st.games.find? (fun g => g.id == f.game_id) with
        | none => false
        | some g => decide (g.date ≤ d)))).length

/-- score_breakdown object of GET /api/analytics/game/:id/scores: the four
place counts and the consistency bonus, the latter computed by
subtracting the weighted place counts from the cumulative score. -/
structure ScoreBreakdown where
  first_place_points : Nat
  second_place_points : Nat
  third_place_points : Nat
  fourth_place_points : Nat
  consistency_bonus : ℚ
deriving DecidableEq, Repr

/-- One element of player_scores in the response of
GET /api/analytics/game/:id/scores. -/
structure GameScoreEntry where
  player_id : Nat
  player_name : String
  current_position : Nat
  cumulative_score : ℚ
  total_games : Nat
  games_won : Nat
  avg_position : ℚ
  score_breakdown : ScoreBreakdown
deriving DecidableEq, Repr

/-- Response of GET /api/analytics/game/:id/scores. -/
inductive ScoresResp
  | ok (game_id : Nat) (game_date : Nat) (player_scores : List GameScoreEntry)
  | notFound
deriving DecidableEq, Repr

/-- ORDER BY pgr.position of the players-in-game query. -/
def posLe (a b : Nat × String × Nat) : Prop :=
  a.2.2 ≤ b.2.2

instance : DecidableRel posLe := fun a b => by
  unfold posLe
  infer_instance

/-- Players who played in one specific game, with names and positions,
ordered by position. -/
def playersInGame (st : Store) (gid : Nat) : List (Nat × String × Nat) :=
  List.insertionSort posLe
    ((st.results.filter (fun f => f.game_id == gid)).filterMap
      (fun f => (st.players.find? (fun p => p.id == f.player_id)).map
        (fun p => (f.player_id, p.name, f.position))))

/-- Entry built for one player of the game: cumulative score over the
facts dated up to d (same SQL expression as the leaderboard view), and
the breakdown whose consistency_bonus is cumulative score minus the
weighted place counts. -/
def gameScoreEntry (st : Store) (d : Nat) (pr : Nat × String × Nat) : GameScoreEntry :=
  { player_id := pr.1
    player_name := pr.2.1
    current_position := pr.2.2
    cumulative_score := rankingScore (positionsUpTo st pr.1 d)
    total_games := (positionsUpTo st pr.1 d).length
    games_won := countPos (positionsUpTo st pr.1 d) 1
    avg_position := (avgPositionRounded (positionsUpTo st pr.1 d)).getD 0
    score_breakdown :=
      { first_place_points := getPositionPoints st pr.1 d 1
        second_place_points := getPositionPoints st pr.1 d 2
        third_place_points := getPositionPoints st pr.1 d 3
        fourth_place_points := getPositionPoints st pr.1 d 4
        consistency_bonus := rankingScore (positionsUpTo st pr.1 d)
          - ((getPositionPoints st pr.1 d 1 : ℚ) * 10
            + (getPositionPoints st pr.1 d 2 : ℚ) * 5
            + (getPositionPoints st pr.1 d 3 : ℚ) * 3
            + (getPositionPoints st pr.1 d 4 : ℚ) * 1) } }

/-- Sort of the response by cumulative_score descending
(playerScores.sort((a, b) => b.cumulative_score - a.cumulative_score)). -/
def cumScoreLe (a b : GameScoreEntry) : Prop :=
  b.cumulative_score ≤ a.cumulative_score

instance : DecidableRel cumScoreLe := fun a b => by
  unfold cumScoreLe
  infer_instance

/-- GET /api/analytics/game/:id/scores (getCumulativeScoresAsOf): 404
when the game does not exist, otherwise one entry per player of the game
with cumulative score and breakdown as of the game date, sorted by
cumulative score descending. -/
def getCumulativeScoresAsOf (st : Store) (gid : Nat) : ScoresResp :=
  match st.games.find? (fun g => g.id == gid) with
  | none => ScoresResp.notFound
  | some g =>
    ScoresResp.ok gid g.date
      (List.insertionSort cumScoreLe
        ((playersInGame st gid).map (gameScoreEntry st g.date)))

/-- C10: every entry of the per-game cumulative score read has an
internally consistent breakdown: ten times the first-place count plus
five times the second plus three times the third plus one times the
fourth plus the consistency bonus equals the cumulative score exactly,
the place counts being the counts of the player over facts dated on or
before the reference game date. -/
theorem score_breakdown_consistent (st : Store) (gid : Nat) (gdate : Nat)
    (scores : List GameScoreEntry)
    (h : getCumulativeScoresAsOf st gid = ScoresResp.ok gid gdate scores) :
    ∀ e ∈ scores,
      (e.score_breakdown.first_place_points : ℚ) * 10
        + (e.score_breakdown.second_place_points : ℚ) * 5
        + (e.score_breakdown.third_place_points : ℚ) * 3
        + (e.score_breakdown.fourth_place_points : ℚ) * 1
        + e.score_breakdown.consistency_bonus
      = e.cumulative_score := by
  intro e he
  unfold getCumulativeScoresAsOf at h
  cases hfind : st.games.find? (fun g => g.id == gid) with
  | none =>
    rw [hfind] at h
    exact ScoresResp.noConfusion h
  | some g =>
    rw [hfind] at h
    injection h with h1 h2 h3
    rw [← h3] at he
    have he2 : e ∈ (playersInGame st gid).map (gameScoreEntry st g.date) :=
      (List.perm_insertionSort cumScoreLe _).mem_iff.mp he
    obtain ⟨pr, hpr, hpe⟩ := List.mem_map.mp he2
    rw [← hpe]
    simp only [gameScoreEntry]
    ring

/-- Witness for C10 at the one-game store stC6: the single entry of the
response for game 1 satisfies the breakdown identity. -/
theorem score_breakdown_consistent_witness :
    ((gameScoreEntry stC6 3 (1, "Alice", 1)).score_breakdown.first_place_points : ℚ) * 10
      + ((gameScoreEntry stC6 3 (1, "Alice", 1)).score_breakdown.second_place_points : ℚ) * 5
      + ((gameScoreEntry stC6 3 (1, "Alice", 1)).score_breakdown.third_place_points : ℚ) * 3
      + ((gameScoreEntry stC6 3 (1, "Alice", 1)).score_breakdown.fourth_place_points : ℚ) * 1
      + (gameScoreEntry stC6 3 (1, "Alice", 1)).score_breakdown.consistency_bonus
    = (gameScoreEntry stC6 3 (1, "Alice", 1)).cumulative_score := by
  have hmem : gameScoreEntry stC6 3 (1, "Alice", 1) ∈
      List.insertionSort cumScoreLe
        ((playersInGame stC6 1).map (gameScoreEntry stC6 3)) := by
    have hred : List.insertionSort cumScoreLe
        ((playersInGame stC6 1).map (gameScoreEntry stC6 3))
        = [gameScoreEntry stC6 3 (1, "Alice", 1)] := rfl
    rw [hred]
    exact List.mem_singleton.mpr rfl
  exact score_breakdown_consistent stC6 1 3 _ rfl
    (gameScoreEntry stC6 3 (1, "Alice", 1)) hmem
